import Mathlib

/-!
Shallow embedding of the booking service (src/main.py, src/databases_sql.py,
src/utils.py, src/models.py) and proofs about its booking-admission logic,
stores and time conversion.

Modelling conventions:
* Instants are integers (UTC epoch minutes).  The source persists start times
  as normalized UTC ISO-8601 strings; for such strings byte-lexicographic
  order coincides with chronological order, so the embedding represents a
  stored `start_utc` text directly by the instant it denotes.
* Python exceptions (HTTPException, ValueError, OverflowError, pydantic
  ValidationError, pytz UnknownTimeZoneError) become an `Except` error value;
  an operation that raises before writing returns the store unchanged.
* The relational `bookings` table, the `classes` table and the flat
  `bookings.json` log are the three fields of `Store`; every operation is a
  pure function threading the store.
-/

namespace Booking

/-- A row of the relational `classes` table (databases_sql.py SCHEMA). -/
structure ClassRow where
  id : Int
  name : String
  instructor : String
  startUtc : Int
  capacity : Int
deriving Repr, DecidableEq

/-- A row of the relational `bookings` table (databases_sql.py SCHEMA). -/
structure DBBooking where
  id : Int
  class_id : Int
  name : String
  email : String
  booked_at_utc : Int
deriving Repr, DecidableEq

/-- A record of the flat secondary log `bookings.json`
(main.py `_load_bookings` / `_save_bookings`): the fields of the request
plus the `booked_at` timestamp (main.py lines 113-114). -/
structure LogBooking where
  class_id : Int
  name : String
  email : String
  booked_at : Int
deriving Repr, DecidableEq

/-- The persistent state: the two relational tables plus the secondary log.
`nextBookingId` models SQLite AUTOINCREMENT `lastrowid` for `bookings`. -/
structure Store where
  classes : List ClassRow
  dbBookings : List DBBooking
  log : List LogBooking
  nextBookingId : Int
deriving Repr, DecidableEq

/-- The body of a POST /book request (main.py `BookRequest`). -/
structure BookRequest where
  class_id : Int
  name : String
  email : String
deriving Repr, DecidableEq

/-- Python exception / HTTP rejection kinds raised by the embedded code. -/
inductive PyErr where
  | classNotFound      -- HTTPException 404 "Class not found"
  | classInPast        -- HTTPException 400 "Cannot book past classes"
  | classFull          -- HTTPException 409 "Class is full"
  | invalidTimezone    -- HTTPException 400 "Invalid timezone"
  | valueError         -- ValueError from utils.from_utc
  | unknownTimeZone    -- pytz.UnknownTimeZoneError
  | typeError          -- subscripting None (missing class row)
  | validationError    -- pydantic ValidationError
deriving Repr, DecidableEq

/-- Errors raised by databases_sql.create_booking:
ValueError "Class not found" and OverflowError "Class is full". -/
inductive CreateErr where
  | classNotFound
  | classFull
deriving Repr, DecidableEq

/-- A JSON value appearing in the /book success response. -/
inductive PyVal where
  | str (s : String)
  | int (n : Int)
deriving Repr, DecidableEq

/-- The JSON object returned by a successful POST /book: keyword/value pairs. -/
abbrev Response := List (String × PyVal)

/-! ## databases_sql.py -/

/-- Embeds databases_sql.get_class: `SELECT * FROM classes WHERE id = ?`, first row or None. -/
def get_class (s : Store) (class_id : Int) : Option ClassRow :=
  s.classes.find? (fun c => c.id == class_id)

/-- The ordering used by `SELECT * FROM classes ORDER BY start_utc`. -/
def startLe (a b : ClassRow) : Prop := a.startUtc ≤ b.startUtc

instance : DecidableRel startLe := fun a b => Int.decLe a.startUtc b.startUtc

instance : IsTotal ClassRow startLe := ⟨fun a b => Int.le_total a.startUtc b.startUtc⟩

instance : IsTrans ClassRow startLe := ⟨fun _ _ _ hab hbc => Int.le_trans hab hbc⟩

/-- Embeds databases_sql.list_classes: `SELECT * FROM classes ORDER BY start_utc`. -/
def list_classes (s : Store) : List ClassRow :=
  List.insertionSort startLe s.classes

/-- Count of relational bookings rows for a class
(databases_sql.count_bookings_for_class and the COUNT inside create_booking). -/
def count_bookings_db (l : List DBBooking) (class_id : Int) : Nat :=
  (l.filter (fun b => b.class_id == class_id)).length

/-- Embeds databases_sql.create_booking: inside one transaction, look up the class
(ValueError if absent), count its bookings rows, reject with OverflowError if
`booked >= capacity`, else insert and return the new row id.  On an error the
transaction is rolled back, so the store comes back unchanged. -/
def create_booking (s : Store) (class_id : Int) (name : String) (email : String)
    (booked_at_utc : Int) : (Except CreateErr Int) × Store :=
  match get_class s class_id with
  | none => (.error .classNotFound, s)
  | some cls =>
    let booked := count_bookings_db s.dbBookings class_id
    if cls.capacity ≤ (booked : Int) then (.error .classFull, s)
    else
      let bid := s.nextBookingId
      (.ok bid,
        { s with
          dbBookings := s.dbBookings ++ [⟨bid, class_id, name, email, booked_at_utc⟩],
          nextBookingId := bid + 1 })

/-- Embeds databases_sql.list_bookings_by_email: exact (case-sensitive) email match,
joined with the class, ordered by booking time descending. -/
def bookedAtGe (a b : DBBooking) : Prop := b.booked_at_utc ≤ a.booked_at_utc

instance : DecidableRel bookedAtGe := fun a b => Int.decLe b.booked_at_utc a.booked_at_utc

def list_bookings_by_email (s : Store) (email : String) : List DBBooking :=
  List.insertionSort bookedAtGe (s.dbBookings.filter (fun b => b.email == email))

/-! ## main.py: the admission endpoint POST /book -/

/-- Count of secondary-log records for a class
(main.py line 109: `sum(1 for b in bookings if b["class_id"] == req.class_id)`). -/
def count_bookings_log (l : List LogBooking) (class_id : Int) : Nat :=
  (l.filter (fun b => b.class_id == class_id)).length

/-- Python str.lower as used on the emails in scope: lower-case every
character (the body of String.toLower, written as a structural map so that
concrete instances evaluate). -/
def strLower (s : String) : String := String.mk (s.data.map Char.toLower)

/-- Count of secondary-log records whose email matches case-insensitively
(the per-user count described by spec section 4.3 step 1; main.py has no such
check in `book_class`, this definition exists to state that fact). -/
def count_bookings_for_email (l : List LogBooking) (email : String) : Nat :=
  (l.filter (fun b => strLower b.email == strLower email)).length

/-- Embeds main.py book_class (POST /book), lines 94-119.  `now` is
`datetime.now(pytz.UTC)`.  Steps, in source order: 404 if the class id does
not resolve; 400 if the class start is strictly before now; load the
secondary log, count records for this class, 409 if `count >= capacity`;
otherwise append the request (with `booked_at = now`) to the log, save it,
and return the JSON object
`\x7b"message": "Booking successful!", "available_slots": capacity - count - 1\x7d`.
Errors are raised before any write, so they leave the store unchanged. -/
def book_class (s : Store) (now : Int) (req : BookRequest) :
    (Except PyErr Response) × Store :=
  match get_class s req.class_id with
  | none => (.error .classNotFound, s)
  | some cls =>
    if cls.startUtc < now then (.error .classInPast, s)
    else
      let bookings := s.log
      let booked_count := count_bookings_log bookings req.class_id
      if cls.capacity ≤ (booked_count : Int) then (.error .classFull, s)
      else
        let booking : LogBooking := ⟨req.class_id, req.name, req.email, now⟩
        (.ok [("message", .str "Booking successful!"),
              ("available_slots", .int (cls.capacity - (booked_count : Int) - 1))],
         { s with log := bookings ++ [booking] })

/-- The keys of a /book response (for error results, no body is produced). -/
def responseKeys (r : Except PyErr Response) : List String :=
  match r with
  | .ok kvs => kvs.map Prod.fst
  | .error _ => []

/-- A sequence of admission calls, each with its own current instant,
threading the store (errors leave it unchanged). -/
def runBookings (s : Store) (reqs : List (Int × BookRequest)) : Store :=
  reqs.foldl (fun st r => (book_class st r.1 r.2).2) s

/-- The core invariant: every class that its id resolves to has no more
secondary-log bookings than its capacity. -/
def capacityInvariant (s : Store) : Prop :=
  ∀ c ∈ s.classes, get_class s c.id = some c →
    (count_bookings_log s.log c.id : Int) ≤ c.capacity

instance (s : Store) : Decidable (capacityInvariant s) := by
  unfold capacityInvariant; infer_instance

/-- Every secondary-log record has a matching relational bookings row
(the subset relation claimed by spec section 4.3 for the two stores). -/
def logSubsetOfDb (s : Store) : Prop :=
  ∀ b ∈ s.log, ∃ d ∈ s.dbBookings,
    d.class_id = b.class_id ∧ d.name = b.name ∧ d.email = b.email ∧
    d.booked_at_utc = b.booked_at

instance (s : Store) : Decidable (logSubsetOfDb s) := by
  unfold logSubsetOfDb; infer_instance

/-! ## utils.py: timezone conversion -/

/-- A Python datetime: naive (wall-clock value, no tzinfo) or aware
(an absolute UTC instant carrying a zone name as its tzinfo). -/
inductive PyDatetime where
  | naive (wall : Int)
  | aware (utcInstant : Int) (tzName : String)
deriving Repr, DecidableEq

/-- The Asia/Kolkata offset from UTC in minutes (constant, no DST). -/
def IST_OFFSET : Int := 330

/-- Embeds pytz.timezone: returns the zone for a recognized IANA name and raises
UnknownTimeZoneError otherwise.  Represented over a finite fragment of the
IANA table; the offset data of a zone is irrelevant to the embedded
functions, which act on absolute instants, so a zone is kept as its name. -/
def ianaZoneNames : List String :=
  ["UTC", "Asia/Kolkata", "America/New_York", "America/Los_Angeles",
   "Europe/London", "Europe/Paris", "Asia/Tokyo", "Australia/Sydney"]

def pytzTimezone (name : String) : Option String :=
  if name ∈ ianaZoneNames then some name else none

/-- Embeds utils.ensure_ist: localize a naive value in IST (interpreting the wall
clock at offset +330), convert an aware value to IST (astimezone preserves
the instant), pass an IST value through. -/
def ensure_ist : PyDatetime → PyDatetime
  | .naive wall => .aware (wall - IST_OFFSET) "Asia/Kolkata"
  | .aware i tz => if tz = "Asia/Kolkata" then .aware i tz else .aware i "Asia/Kolkata"

/-- Embeds utils.to_utc: `ensure_ist(dt).astimezone(UTC)`; astimezone preserves the
instant and retags with UTC.  (`ensure_ist` always returns an aware value,
so the naive branch below is unreachable.) -/
def to_utc (dt : PyDatetime) : PyDatetime :=
  match ensure_ist dt with
  | .naive w => .naive w
  | .aware i _ => .aware i "UTC"

/-- Embeds utils.from_utc: raise ValueError unless the input's tzinfo is UTC, then
`astimezone(pytz.timezone(to_tz))`, which raises UnknownTimeZoneError for an
unrecognized zone name and otherwise retags the same instant. -/
def from_utc (utc_dt : PyDatetime) (to_tz : String) : Except PyErr PyDatetime :=
  match utc_dt with
  | .naive _ => .error .valueError
  | .aware i tz =>
    if tz = "UTC" then
      match pytzTimezone to_tz with
      | some z => .ok (.aware i z)
      | none => .error .unknownTimeZone
    else .error .valueError

/-- Modelled from the spec: `utils.from_utc_iso_to_tz` is imported by main.py
but absent from src/utils.py (it lives in the repository's other timezone
utility variant).  Per spec section 4.1 it converts a persisted UTC start
time to the requested display zone at the presentation boundary, producing a
display value; represented as the instant paired with the display zone name
(its serialization as a string is presentation detail no claim depends on). -/
def from_utc_iso_to_tz (startUtc : Int) (tz : String) : Int × String :=
  (startUtc, tz)

/-! ## main.py: the read endpoints -/

/-- Embeds models.ClassOut; its start_utc field holds the zone-converted display
value produced by from_utc_iso_to_tz (a string in models.py, modelled by the
value it displays). -/
structure ClassOut where
  id : Int
  name : String
  instructor : String
  start_utc : Int × String
  capacity : Int
  available_slots : Int
deriving Repr, DecidableEq

/-- Embeds models.BookingOut; its start field is named `class_start_local`
(models.py line 23, renamed there "for accuracy"). -/
structure BookingOut where
  id : Option Int
  class_id : Int
  class_name : String
  class_start_local : Int × String
  name : String
  email : String
  booked_at_utc : Int
deriving Repr, DecidableEq

/-- Structural equality test for Except results, used to evaluate concrete
endpoint outcomes. -/
instance {ε α : Type} [DecidableEq ε] [DecidableEq α] : DecidableEq (Except ε α) := by
  intro x y
  cases x <;> cases y
  case error.error a b =>
    exact if h : a = b then .isTrue (by rw [h]) else .isFalse (by intro hc; injection hc; exact h (by assumption))
  case error.ok a b => exact .isFalse (by intro hc; cases hc)
  case ok.error a b => exact .isFalse (by intro hc; cases hc)
  case ok.ok a b =>
    exact if h : a = b then .isTrue (by rw [h]) else .isFalse (by intro hc; injection hc; exact h (by assumption))

/-- The field names models.BookingOut requires a value for (`id` has a
default of None and is not required). -/
def bookingOutRequired : List String :=
  ["class_id", "class_name", "class_start_local", "name", "email", "booked_at_utc"]

/-- The keyword names main.py lines 139-147 passes to `BookingOut(...)`:
it passes `class_start_utc`, not the required `class_start_local`. -/
def bookingOutCallKeywords : List String :=
  ["id", "class_id", "class_name", "class_start_utc", "name", "email", "booked_at_utc"]

/-- Pydantic model construction: validation fails (ValidationError) when some
required field receives no value from the supplied keywords; extra keywords
are ignored. -/
def pydanticCheck (required supplied : List String) : Except PyErr Unit :=
  if required.all (fun f => supplied.contains f) then .ok () else .error .validationError

/-- The `BookingOut(...)` call in main.py get_bookings_api: pydantic collects
the supplied keywords against the model's required fields; since
`class_start_local` is not among them, construction raises ValidationError
before any value (including the converted start) is bound. -/
def mkBookingOut (b : LogBooking) (cls : ClassRow) (tz : String) :
    Except PyErr BookingOut :=
  match pydanticCheck bookingOutRequired bookingOutCallKeywords with
  | .error e => .error e
  | .ok _ =>
    .ok { id := none, class_id := b.class_id, class_name := cls.name,
          class_start_local := from_utc_iso_to_tz cls.startUtc tz,
          name := b.name, email := b.email, booked_at_utc := b.booked_at }

/-- The loop body of main.py get_bookings_api lines 135-148: for each matching
log record, look up its class (subscripting the None returned for a missing
class raises TypeError), then construct the BookingOut.  An exception aborts
the whole response. -/
def buildBookingOuts (s : Store) (tz : String) :
    List LogBooking → Except PyErr (List BookingOut)
  | [] => .ok []
  | b :: rest =>
    match get_class s b.class_id with
    | none => .error .typeError
    | some cls =>
      match mkBookingOut b cls tz with
      | .error e => .error e
      | .ok o =>
        match buildBookingOuts s tz rest with
        | .error e => .error e
        | .ok outs => .ok (o :: outs)

/-- Embeds main.py get_bookings_api (GET /bookings), lines 122-149: 400 on an
invalid timezone, then filter the secondary log by case-insensitive email
match and build the output records. -/
def get_bookings_api (s : Store) (email : String) (tz : String) :
    Except PyErr (List BookingOut) :=
  match pytzTimezone tz with
  | none => .error .invalidTimezone
  | some _ =>
    buildBookingOuts s tz (s.log.filter (fun b => strLower b.email == strLower email))

/-- Embeds main.py get_classes_api (GET /classes), lines 59-91: 400 on an invalid
timezone; list the classes in start order; skip classes already started
(`class_start < now_utc`); for each remaining class count its secondary-log
bookings and report `available_slots = max(0, capacity - booked)`. -/
def get_classes_api (s : Store) (now : Int) (tz : String) :
    Except PyErr (List ClassOut) :=
  match pytzTimezone tz with
  | none => .error .invalidTimezone
  | some _ =>
    .ok <| (list_classes s).filterMap (fun r =>
      if r.startUtc < now then none
      else
        let booked := count_bookings_log s.log r.id
        some { id := r.id, name := r.name, instructor := r.instructor,
               start_utc := from_utc_iso_to_tz r.startUtc tz,
               capacity := r.capacity,
               available_slots := max 0 (r.capacity - (booked : Int)) })

/-! ## Concrete fixtures used by witnesses and counterexamples -/

/-- A class session already at capacity in `wStore` (capacity 2). -/
def wClassA : ClassRow := ⟨1, "Yoga", "Asha", 100, 2⟩

/-- A class session with free capacity in `wStore`. -/
def wClassB : ClassRow := ⟨2, "Zumba", "Ravi", 200, 15⟩

/-- A store whose class 1 is at capacity and whose log holds two bookings by
the same email up to case. -/
def wStore : Store :=
  { classes := [wClassA, wClassB],
    dbBookings := [],
    log := [⟨1, "Alice", "A@B.com", 10⟩, ⟨1, "Bob", "a@b.com", 11⟩],
    nextBookingId := 1 }

/-- A store with one open class and no bookings anywhere. -/
def emptyLogStore : Store :=
  { classes := [⟨1, "Yoga", "Asha", 100, 5⟩],
    dbBookings := [], log := [], nextBookingId := 1 }

/-- A store with one class and one secondary-log booking under a
mixed-case email. -/
def oneBookingStore : Store :=
  { classes := [⟨1, "Yoga", "Asha", 100, 15⟩],
    dbBookings := [],
    log := [⟨1, "Alice", "X@Y.com", 5⟩],
    nextBookingId := 1 }

/-! ## Helper lemmas -/

/-- Appending one log record changes a per-class count by one exactly for
that record's class. -/
theorem count_bookings_log_append (l : List LogBooking) (b : LogBooking) (cid : Int) :
    count_bookings_log (l ++ [b]) cid
      = count_bookings_log l cid + (if b.class_id = cid then 1 else 0) := by
  unfold count_bookings_log
  rw [List.filter_append]
  by_cases h : b.class_id = cid
  · simp [h]
  · simp [h]

/-- Case analysis of book_class: either it rejects and returns the store
unchanged, or the class resolved, is not in the past, had a free slot, and
exactly the one new record was appended to the secondary log. -/
theorem book_class_cases (s : Store) (now : Int) (req : BookRequest) :
    (book_class s now req).2 = s ∨
    (∃ c, get_class s req.class_id = some c ∧ ¬ c.startUtc < now ∧
      (count_bookings_log s.log req.class_id : Int) < c.capacity ∧
      (book_class s now req).2
        = { s with log := s.log ++ [⟨req.class_id, req.name, req.email, now⟩] }) := by
  unfold book_class
  cases hg : get_class s req.class_id with
  | none => exact Or.inl rfl
  | some c =>
    by_cases hp : c.startUtc < now
    · simp [hp]
    · by_cases hc : c.capacity ≤ (count_bookings_log s.log req.class_id : Int)
      · simp [hp, hc]
      · refine Or.inr ⟨c, rfl, hp, by omega, ?_⟩
        simp [hp, hc]

/-- The admission call never touches the classes table, the relational bookings
table or the id counter. -/
theorem book_class_db_unchanged (s : Store) (now : Int) (req : BookRequest) :
    (book_class s now req).2.classes = s.classes ∧
    (book_class s now req).2.dbBookings = s.dbBookings ∧
    (book_class s now req).2.nextBookingId = s.nextBookingId := by
  rcases book_class_cases s now req with h | ⟨c, _, _, _, h⟩ <;> rw [h] <;> exact ⟨rfl, rfl, rfl⟩

/-- One admission call preserves the capacity invariant. -/
theorem book_class_preserves_inv (s : Store) (now : Int) (req : BookRequest)
    (h : capacityInvariant s) : capacityInvariant (book_class s now req).2 := by
  rcases book_class_cases s now req with heq | ⟨c, hg, _, hc, heq⟩
  · rw [heq]; exact h
  · rw [heq]
    intro d hd hgd
    have hcls : ({ s with log := s.log ++ [⟨req.class_id, req.name, req.email, now⟩] } : Store).classes = s.classes := rfl
    rw [hcls] at hd
    have hgd2 : get_class s d.id = some d := hgd
    have := h d hd hgd2
    show (count_bookings_log (s.log ++ [⟨req.class_id, req.name, req.email, now⟩]) d.id : Int) ≤ d.capacity
    rw [count_bookings_log_append]
    by_cases hid : req.class_id = d.id
    · have : c = d := by
        rw [hid] at hg
        rw [hg] at hgd2
        exact Option.some.inj hgd2
      subst this
      rw [hid] at hc
      simp only [hid, if_pos rfl]
      push_cast
      omega
    · simp only [hid, if_neg hid]
      push_cast
      omega

/-- Any sequence of admission calls preserves the capacity invariant. -/
theorem runBookings_preserves_inv (reqs : List (Int × BookRequest)) :
    ∀ s : Store, capacityInvariant s → capacityInvariant (runBookings s reqs) := by
  induction reqs with
  | nil => intro s h; exact h
  | cons r rest ih =>
    intro s h
    exact ih ((book_class s r.1 r.2).2) (book_class_preserves_inv s r.1 r.2 h)

/-- Appending one log record changes the per-email case-insensitive count by
one exactly when the emails agree up to case. -/
theorem count_email_append (l : List LogBooking) (b : LogBooking) (e : String) :
    count_bookings_for_email (l ++ [b]) e
      = count_bookings_for_email l e
        + (if strLower b.email = strLower e then 1 else 0) := by
  unfold count_bookings_for_email
  rw [List.filter_append]
  by_cases h : strLower b.email = strLower e
  · simp [h]
  · simp [h]

/-! ## Claim theorems -/

/-- Claim C1: for every class session, after any sequence of
booking-admission calls the number of secondary-log bookings referencing it
never exceeds its capacity, and an admission attempt against a class whose
booking count is already at capacity is rejected — with ClassFull whenever
the class is not already in the past — and inserts nothing. -/
theorem capacity_never_exceeded (s : Store) (reqs : List (Int × BookRequest))
    (now : Int) (req : BookRequest) (c : ClassRow)
    (hinv : capacityInvariant s)
    (hg : get_class s req.class_id = some c)
    (hfull : c.capacity ≤ (count_bookings_log s.log req.class_id : Int)) :
    capacityInvariant (runBookings s reqs) ∧
    (book_class s now req).2 = s ∧
    (¬ c.startUtc < now → (book_class s now req).1 = .error .classFull) := by
  refine ⟨runBookings_preserves_inv reqs s hinv, ?_, ?_⟩
  · rcases book_class_cases s now req with h | ⟨d, hgd, _, hlt, _⟩
    · exact h
    · rw [hg] at hgd
      have hcd : c = d := Option.some.inj hgd
      subst hcd
      omega
  · intro hnp
    unfold book_class
    rw [hg]
    simp [hnp, hfull]

/-- Claim C1 witness: in a concrete store whose class 1 has capacity 2 and
two logged bookings, a further attempt is rejected with ClassFull and the
invariant survives a concrete sequence of calls. -/
theorem capacity_never_exceeded_witness :
    capacityInvariant (runBookings wStore
      [(50, ⟨1, "Carol", "c@d.e"⟩), (50, ⟨2, "Dan", "d@e.f"⟩)]) ∧
    (book_class wStore 50 ⟨1, "Carol", "c@d.e"⟩).2 = wStore ∧
    (¬ wClassA.startUtc < 50 →
      (book_class wStore 50 ⟨1, "Carol", "c@d.e"⟩).1 = .error .classFull) :=
  capacity_never_exceeded wStore [(50, ⟨1, "Carol", "c@d.e"⟩), (50, ⟨2, "Dan", "d@e.f"⟩)]
    50 ⟨1, "Carol", "c@d.e"⟩ wClassA (by decide) (by decide) (by decide)

/-- Claim C2 counterexample: in a concrete store where the email has two
secondary-log bookings (counted case-insensitively), a third admission
request from that email against another class is admitted and a record is
created — there is no TooManyBookings rejection in book_class. -/
theorem no_rate_limit_counterexample :
    2 ≤ count_bookings_for_email wStore.log "A@b.COM" ∧
    (book_class wStore 50 ⟨2, "Eve", "A@b.COM"⟩).1.isOk = true ∧
    (book_class wStore 50 ⟨2, "Eve", "A@b.COM"⟩).2.log.length
      = wStore.log.length + 1 := by
  decide

/-- Claim C2 amended: book_class enforces no per-user limit.  A request
whose email already has at least 2 secondary-log bookings (case-insensitive
count) is admitted whenever the class resolves, is not in the past and has a
free slot; the booking is appended and the email's count grows to at least 3. -/
theorem no_rate_limit (s : Store) (now : Int) (req : BookRequest) (c : ClassRow)
    (hg : get_class s req.class_id = some c)
    (hp : ¬ c.startUtc < now)
    (hcap : (count_bookings_log s.log req.class_id : Int) < c.capacity)
    (hmany : 2 ≤ count_bookings_for_email s.log req.email) :
    (book_class s now req).1.isOk = true ∧
    (book_class s now req).2.log = s.log ++ [⟨req.class_id, req.name, req.email, now⟩] ∧
    3 ≤ count_bookings_for_email (book_class s now req).2.log req.email := by
  have hnot : ¬ c.capacity ≤ (count_bookings_log s.log req.class_id : Int) := by omega
  refine ⟨?_, ?_, ?_⟩
  · unfold book_class
    rw [hg]
    simp [hp, hnot, Except.isOk, Except.toBool]
  · unfold book_class
    rw [hg]
    simp [hp, hnot]
  · unfold book_class
    rw [hg]
    simp only [hp, hnot, if_neg, if_false]
    rw [count_email_append]
    simp
    omega

/-- Claim C2 amended witness: a concrete third booking by an email with two
existing logged bookings succeeds. -/
theorem no_rate_limit_witness :
    (book_class wStore 50 ⟨2, "Frank", "a@B.Com"⟩).1.isOk = true ∧
    (book_class wStore 50 ⟨2, "Frank", "a@B.Com"⟩).2.log
      = wStore.log ++ [⟨2, "Frank", "a@B.Com", 50⟩] ∧
    3 ≤ count_bookings_for_email
      (book_class wStore 50 ⟨2, "Frank", "a@B.Com"⟩).2.log "a@B.Com" :=
  no_rate_limit wStore 50 ⟨2, "Frank", "a@B.Com"⟩ wClassB
    (by decide) (by decide) (by decide) (by decide)

/-- Claim C3 counterexample: a concrete successful admission writes the
secondary log while the relational bookings table stays empty, so the
secondary log is not a subset of the relational bookings. -/
theorem log_not_subset_counterexample :
    (book_class emptyLogStore 10 ⟨1, "Bob", "b@c.d"⟩).1.isOk = true ∧
    (book_class emptyLogStore 10 ⟨1, "Bob", "b@c.d"⟩).2.dbBookings = [] ∧
    (book_class emptyLogStore 10 ⟨1, "Bob", "b@c.d"⟩).2.log ≠ [] ∧
    ¬ logSubsetOfDb (book_class emptyLogStore 10 ⟨1, "Bob", "b@c.d"⟩).2 := by
  decide

/-- Claim C3 amended: the admission endpoint performs no relational insert at
all — book_class writes only the secondary log, leaving the classes table,
the relational bookings table and the id counter unchanged on every call, so
no ordering of a relational insert before the log write exists and the
secondary log is not in general a subset of the relational bookings. -/
theorem book_class_writes_only_log (s : Store) (now : Int) (req : BookRequest) :
    (book_class s now req).2.dbBookings = s.dbBookings ∧
    (book_class s now req).2.classes = s.classes ∧
    (book_class s now req).2.nextBookingId = s.nextBookingId := by
  have h := book_class_db_unchanged s now req
  exact ⟨h.2.1, h.1, h.2.2⟩

/-- Claim C4: a booking request whose class id does not resolve is rejected
with ClassNotFound by book_class with the store unchanged (nothing persisted
in either store), and the store-level create_booking rejects it likewise with
a rollback. -/
theorem class_not_found_rejected (s : Store) (now : Int) (req : BookRequest)
    (hg : get_class s req.class_id = none) :
    book_class s now req = (.error .classNotFound, s) ∧
    create_booking s req.class_id req.name req.email now = (.error .classNotFound, s) := by
  constructor
  · unfold book_class
    rw [hg]
  · unfold create_booking
    rw [hg]

/-- Claim C4 witness: booking class 99, which does not exist in the concrete
store, fails with ClassNotFound and changes nothing. -/
theorem class_not_found_rejected_witness :
    book_class wStore 50 ⟨99, "Gina", "g@h.i"⟩ = (.error .classNotFound, wStore) ∧
    create_booking wStore 99 "Gina" "g@h.i" 50 = (.error .classNotFound, wStore) :=
  class_not_found_rejected wStore 50 ⟨99, "Gina", "g@h.i"⟩ (by decide)

/-- Claim C5: converting a UTC-tagged instant to any recognized zone with
from_utc and back to UTC with to_utc returns the original instant tagged
UTC — the round-trip identity of the time-conversion functions (to_utc takes
no zone argument in the source; it routes every aware value through IST,
which preserves the instant). -/
theorem tz_roundtrip (i : Int) (zone : String)
    (h : (pytzTimezone zone).isSome = true) :
    (from_utc (PyDatetime.aware i "UTC") zone).map to_utc
      = Except.ok (PyDatetime.aware i "UTC") := by
  have hz : pytzTimezone zone = some zone := by
    unfold pytzTimezone at h ⊢
    by_cases hm : zone ∈ ianaZoneNames
    · rw [if_pos hm]
    · rw [if_neg hm] at h
      simp at h
  have hfrom : from_utc (PyDatetime.aware i "UTC") zone
      = Except.ok (PyDatetime.aware i zone) := by
    simp [from_utc, hz]
  rw [hfrom]
  show Except.ok (to_utc (.aware i zone)) = Except.ok (.aware i "UTC")
  unfold to_utc ensure_ist
  by_cases hk : zone = "Asia/Kolkata" <;> simp [hk]

/-- Claim C5 witness: the round trip at a concrete instant through a
concrete zone. -/
theorem tz_roundtrip_witness :
    ((pytzTimezone "America/New_York").isSome = true) ∧
    (from_utc (PyDatetime.aware 1234 "UTC") "America/New_York").map to_utc
      = Except.ok (PyDatetime.aware 1234 "UTC") :=
  ⟨by decide, tz_roundtrip 1234 "America/New_York" (by decide)⟩

/-- Claim C6: the /bookings filter does select stored bookings by
case-insensitive email match, but constructing the response crashes: main.py
passes the keyword class_start_utc to models.BookingOut, whose required
field is named class_start_local, so pydantic validation fails and a query
matching any stored booking returns a ValidationError instead of the
booking. -/
theorem get_bookings_crashes_on_match :
    (oneBookingStore.log.filter
      (fun b => strLower b.email == strLower "x@y.com")).length = 1 ∧
    pydanticCheck bookingOutRequired bookingOutCallKeywords = .error .validationError ∧
    get_bookings_api oneBookingStore "x@y.com" "UTC" = .error .validationError := by
  decide

/-- Claim C7 counterexample: a concrete successful admission returns a JSON
object whose keys are exactly message and available_slots — no bookingId is
returned. -/
theorem response_has_no_booking_id :
    responseKeys (book_class emptyLogStore 10 ⟨1, "Bob", "b@c.d"⟩).1
      = ["message", "available_slots"] ∧
    (responseKeys (book_class emptyLogStore 10 ⟨1, "Bob", "b@c.d"⟩).1).contains
      "bookingId" = false := by
  decide

/-- Claim C7 amended: a successful admission against a class of capacity cap
whose booking count observed before the insert was n returns a success
message together with available_slots equal to cap - n - 1; no bookingId is
in the response. -/
theorem success_response_slots (s : Store) (now : Int) (req : BookRequest) (c : ClassRow)
    (hg : get_class s req.class_id = some c)
    (hp : ¬ c.startUtc < now)
    (hcap : (count_bookings_log s.log req.class_id : Int) < c.capacity) :
    (book_class s now req).1
      = .ok [("message", .str "Booking successful!"),
             ("available_slots",
              .int (c.capacity - (count_bookings_log s.log req.class_id : Int) - 1))] ∧
    responseKeys (book_class s now req).1 = ["message", "available_slots"] := by
  have hnot : ¬ c.capacity ≤ (count_bookings_log s.log req.class_id : Int) := by omega
  have hmain : (book_class s now req).1
      = .ok [("message", .str "Booking successful!"),
             ("available_slots",
              .int (c.capacity - (count_bookings_log s.log req.class_id : Int) - 1))] := by
    unfold book_class
    rw [hg]
    simp [hp, hnot]
  exact ⟨hmain, by rw [hmain]; rfl⟩

/-- Claim C7 amended witness: a concrete admission against a capacity-5
class with 0 prior bookings reports 4 slots remaining. -/
theorem success_response_slots_witness :
    (book_class emptyLogStore 10 ⟨1, "Hana", "h@i.j"⟩).1
      = .ok [("message", .str "Booking successful!"),
             ("available_slots",
              .int ((5 : Int) - ((0 : Nat) : Int) - 1))] ∧
    responseKeys (book_class emptyLogStore 10 ⟨1, "Hana", "h@i.j"⟩).1
      = ["message", "available_slots"] :=
  success_response_slots emptyLogStore 10 ⟨1, "Hana", "h@i.j"⟩ ⟨1, "Yoga", "Asha", 100, 5⟩
    (by decide) (by decide) (by decide)

/-- Claim C8: list_classes returns a permutation of the stored classes that
is sorted by start time ascending, for every stored set of classes and hence
regardless of insertion order. -/
theorem list_classes_sorted (s : Store) :
    List.Sorted startLe (list_classes s) ∧ List.Perm (list_classes s) s.classes :=
  ⟨List.sorted_insertionSort startLe s.classes,
   List.perm_insertionSort startLe s.classes⟩

/-- Claim C9: a booking request whose class starts strictly before the
current instant is rejected with ClassInPast and the store is unchanged. -/
theorem past_class_rejected (s : Store) (now : Int) (req : BookRequest) (c : ClassRow)
    (hg : get_class s req.class_id = some c)
    (hp : c.startUtc < now) :
    book_class s now req = (.error .classInPast, s) := by
  unfold book_class
  rw [hg]
  simp [hp]

/-- Claim C9 witness: booking class 1 (start 100) at instant 150 is rejected
with ClassInPast and changes nothing. -/
theorem past_class_rejected_witness :
    book_class wStore 150 ⟨1, "Ivan", "i@j.k"⟩ = (.error .classInPast, wStore) :=
  past_class_rejected wStore 150 ⟨1, "Ivan", "i@j.k"⟩ wClassA (by decide) (by decide)

/-- Claim C10: every class listed by the /classes endpoint reports
available_slots equal to max 0 (capacity - booked count), hence never
negative, even if the stored bookings exceed the capacity. -/
theorem available_slots_clamped (s : Store) (now : Int) (tz : String)
    (out : List ClassOut) (o : ClassOut)
    (hout : get_classes_api s now tz = .ok out) (ho : o ∈ out) :
    0 ≤ o.available_slots ∧
    ∃ r ∈ s.classes, o.id = r.id ∧
      o.available_slots = max 0 (r.capacity - (count_bookings_log s.log r.id : Int)) := by
  unfold get_classes_api at hout
  cases hz : pytzTimezone tz with
  | none =>
    rw [hz] at hout
    cases hout
  | some z =>
    rw [hz] at hout
    have hval := Except.ok.inj hout
    rw [← hval] at ho
    rcases List.mem_filterMap.mp ho with ⟨r, hr, hfr⟩
    have hrs : r ∈ s.classes := (List.mem_insertionSort startLe).mp hr
    by_cases hpast : r.startUtc < now
    · rw [if_pos hpast] at hfr
      cases hfr
    · rw [if_neg hpast] at hfr
      have ho2 := Option.some.inj hfr
      refine ⟨?_, r, hrs, ?_, ?_⟩
      · rw [← ho2]
        exact le_max_left 0 _
      · rw [← ho2]
      · rw [← ho2]

/-- Claim C10 witness: at a concrete store where class 1 holds 2 bookings
against capacity 2, the listing reports 0 available slots for it (and the
clamping equation holds). -/
theorem available_slots_clamped_witness :
    0 ≤ (ClassOut.mk 1 "Yoga" "Asha" (from_utc_iso_to_tz 100 "UTC") 2 0).available_slots ∧
    ∃ r ∈ wStore.classes,
      (ClassOut.mk 1 "Yoga" "Asha" (from_utc_iso_to_tz 100 "UTC") 2 0).id = r.id ∧
      (ClassOut.mk 1 "Yoga" "Asha" (from_utc_iso_to_tz 100 "UTC") 2 0).available_slots
        = max 0 (r.capacity - (count_bookings_log wStore.log r.id : Int)) :=
  available_slots_clamped wStore 50 "UTC"
    [ClassOut.mk 1 "Yoga" "Asha" (from_utc_iso_to_tz 100 "UTC") 2 0,
     ClassOut.mk 2 "Zumba" "Ravi" (from_utc_iso_to_tz 200 "UTC") 15 15]
    (ClassOut.mk 1 "Yoga" "Asha" (from_utc_iso_to_tz 100 "UTC") 2 0)
    (by decide) (by decide)

end Booking
